import Mathlib

/-!
# Verification of the Delta ASDA-AB servo JOG controller core

Shallow embedding of `src/servo_control.py` (`class ServoController`).

Modelling choices:
- `current_speed` is a Python `int`, embedded as `Int`; `current_direction`
  is `None` / `"forward"` / `"reverse"`, embedded as `Option Direction`.
- The Modbus transport is external. A register write either succeeds or
  raises; we thread an oracle `List Bool` of outcomes for the successive
  `write_register` calls an operation performs (an exhausted oracle means
  the write succeeds, so `[]` is the all-writes-succeed scenario).
  A register read either fails (`none`) or returns a register value
  (`some v`, with `v : Nat` since `minimalmodbus.read_register` returns an
  unsigned 16-bit value); reads are passed as `Option Nat` parameters.
- Each operation returns an `OpResult`: the boolean the Python method
  returns, the controller state after the call, the list of
  `(address, value)` pairs successfully written to the device during the
  call, and the remaining oracle.
-/

namespace ServoController

/-- Python: `JOG_STEP = 25`. -/
def JOG_STEP : Int := 25

/-- Python: `REGISTERS["VERSION"] = 0`. -/
def VERSION : Nat := 0

/-- Python: `REGISTERS["ERROR"] = 1`. -/
def ERROR : Nat := 1

/-- Python: `REGISTERS["JOG"] = 1029`. -/
def JOG : Nat := 1029

/-- Python: `JOG_COMMANDS["FORWARD"] = 4999`. -/
def FORWARD : Int := 4999

/-- Python: `JOG_COMMANDS["REVERSE"] = 4998`. -/
def REVERSE : Int := 4998

/-- Python: `JOG_COMMANDS["STOP"] = 5000`. -/
def STOP : Int := 5000

/-- Python: `JOG_COMMANDS["SPEED_MIN"] = 0`. -/
def SPEED_MIN : Int := 0

/-- Python: `JOG_COMMANDS["SPEED_MAX"] = 3000`. -/
def SPEED_MAX : Int := 3000

/-- Motion directions tracked by `current_direction` (Python strings
`"forward"` / `"reverse"`; `None`, i.e. stopped, is `Option.none`). -/
inductive Direction where
  | forward
  | reverse
deriving DecidableEq, Repr

/-- The mutable fields of the Python `ServoController` object that the
claims are about. -/
structure ControllerState where
  current_speed : Int
  current_direction : Option Direction
deriving DecidableEq, Repr

/-- State right after `__init__`: `current_speed = 20`,
`current_direction = None`. -/
def initialState : ControllerState :=
  { current_speed := 20, current_direction := none }

/-- Result of one controller operation: the boolean returned by the Python
method, the state after the call, the `(address, value)` writes confirmed
by the device during the call, and the unconsumed part of the oracle. -/
structure OpResult where
  ok : Bool
  state : ControllerState
  writes : List (Nat × Int)
  oracle : List Bool
deriving DecidableEq, Repr

/-- Outcome of the next `write_register` call: head of the oracle, or
success when the oracle is exhausted. -/
def writeOutcome : List Bool → Bool × List Bool
  | [] => (true, [])
  | b :: rest => (b, rest)

/-- Python method `ServoController.jog(command)`: writes `command` to the
JOG register; on success updates `current_direction` (forward / reverse /
stop codes only, any other command leaves it unchanged) and returns
`True`; a raised transport error is caught and the method returns `False`
with the state untouched. -/
def jog (c : ControllerState) (command : Int) (oracle : List Bool) : OpResult :=
  let w := writeOutcome oracle
  if w.1 then
    { ok := true
      state :=
        { c with
          current_direction :=
            if command = FORWARD then some Direction.forward
            else if command = REVERSE then some Direction.reverse
            else if command = STOP then none
            else c.current_direction }
      writes := [(JOG, command)]
      oracle := w.2 }
  else
    { ok := false, state := c, writes := [], oracle := w.2 }

/-- The range check at the top of `set_jog_speed`: values below
`SPEED_MIN` become `SPEED_MIN`, values above `SPEED_MAX` become
`SPEED_MAX`. -/
def clampSpeed (speed : Int) : Int :=
  if speed < SPEED_MIN then SPEED_MIN
  else if speed > SPEED_MAX then SPEED_MAX
  else speed

/-- Python method `ServoController.set_jog_speed(speed)`: clamps `speed`, writes the
clamped value to the JOG register and stores it in `current_speed`; if
`current_direction` is forward or reverse it then calls `jog` with the
matching command code, discarding that call's boolean result (so the
method returns `True` whenever its own speed write succeeded). A raised
transport error on the speed write is caught and the method returns
`False` with the state untouched. -/
def set_jog_speed (c : ControllerState) (speed : Int) (oracle : List Bool) : OpResult :=
  let speed1 := clampSpeed speed
  let w := writeOutcome oracle
  if w.1 then
    let c1 : ControllerState := { c with current_speed := speed1 }
    let after :=
      if c1.current_direction = some Direction.forward then
        jog c1 FORWARD w.2
      else if c1.current_direction = some Direction.reverse then
        jog c1 REVERSE w.2
      else
        { ok := true, state := c1, writes := [], oracle := w.2 }
    { ok := true
      state := after.state
      writes := (JOG, speed1) :: after.writes
      oracle := after.oracle }
  else
    { ok := false, state := c, writes := [], oracle := w.2 }

/-- Python method `ServoController.increase_speed(increment)`: delegates to
`set_jog_speed(current_speed + increment)`. -/
def increase_speed (c : ControllerState) (increment : Int) (oracle : List Bool) : OpResult :=
  set_jog_speed c (c.current_speed + increment) oracle

/-- Python method `ServoController.decrease_speed(decrement)`: delegates to
`set_jog_speed(current_speed - decrement)`. -/
def decrease_speed (c : ControllerState) (decrement : Int) (oracle : List Bool) : OpResult :=
  set_jog_speed c (c.current_speed - decrement) oracle

/-- Python method `ServoController.initialize_speed()`: reads the JOG register once; a
value `≤ SPEED_MAX` is adopted as `current_speed`, any larger value (a
command code) is discarded; a failed read is caught and the state is left
unchanged. The read result is the `readResult` parameter. -/
def initialize_speed (c : ControllerState) (readResult : Option Nat) : ControllerState :=
  match readResult with
  | some v => if (v : Int) ≤ SPEED_MAX then { c with current_speed := (v : Int) } else c
  | none => c

/-- Python method `ServoController.stop_jog()`: sets `current_direction = None` and then
calls `jog(STOP)`, returning that call's result. -/
def stop_jog (c : ControllerState) (oracle : List Bool) : OpResult :=
  let c1 : ControllerState := { c with current_direction := none }
  jog c1 STOP oracle

/-- The `error_descriptions` dict in `check_connection`, as a lookup
function (Python `dict.get` semantics: `none` when the code is absent). -/
def error_descriptions (code : Nat) : Option String :=
  if code = 1 then some "Перегрузка по току"
  else if code = 2 then some "Перенапряжение"
  else if code = 3 then some "Пониженное напряжение"
  else if code = 4 then some "Смещение Z-импульса"
  else if code = 5 then some "Ошибка рекуперации"
  else if code = 6 then some "Перегрузка"
  else if code = 7 then some "Превышение скорости"
  else if code = 8 then some "Некорректная команда импульсного управления"
  else if code = 9 then some "Чрезмерное отклонение"
  else if code = 10 then some "Ошибка watchdog"
  else if code = 13 then some "Активирован аварийный останов"
  else if code = 14 then some "Ошибка обратного предела"
  else if code = 15 then some "Ошибка прямого предела"
  else if code = 20 then some "Ошибка последовательной связи"
  else if code = 23 then some "Предупреждение о перегрузке"
  else none

/-- Python method `ServoController.check_connection()`: reads the VERSION register and
then the ERROR register (a raised read error is caught and the method
returns `False`); error code `0` returns `True`; a non-zero code prints
its description, resolved with `error_descriptions.get(code, "Неизвестная
ошибка")`, and returns `False`. The result pairs the returned boolean with
the printed description (`none` when no description is printed). -/
def check_connection (versionRead errorRead : Option Nat) : Bool × Option String :=
  match versionRead with
  | none => (false, none)
  | some _ =>
    match errorRead with
    | none => (false, none)
    | some error_code =>
      if error_code = 0 then (true, none)
      else (false, some ((error_descriptions error_code).getD "Неизвестная ошибка"))

/-- Python method `ServoController.reset_speed_to_initial()`: calls
`set_jog_speed(20)` and returns `True` (since `set_jog_speed` catches its
own transport errors, the `except` branch of this method is dead and its
boolean result is `True` regardless of the write outcome). -/
def reset_speed_to_initial (c : ControllerState) (oracle : List Bool) : OpResult :=
  let r := set_jog_speed c 20 oracle
  { ok := true, state := r.state, writes := r.writes, oracle := r.oracle }

/-- Python method `ServoController.close()`: when connected (`self.instrument` set),
runs `stop_jog()` then `reset_speed_to_initial()`; otherwise does
nothing. The Python method returns `None`; `ok` is a placeholder. -/
def close (connected : Bool) (c : ControllerState) (oracle : List Bool) : OpResult :=
  if connected then
    let r1 := stop_jog c oracle
    let r2 := reset_speed_to_initial r1.state r1.oracle
    { ok := true, state := r2.state, writes := r1.writes ++ r2.writes, oracle := r2.oracle }
  else
    { ok := true, state := c, writes := [], oracle := oracle }

/-- Predicate: `current_speed` lies in the documented speed range. -/
def speedInRange (c : ControllerState) : Prop :=
  SPEED_MIN ≤ c.current_speed ∧ c.current_speed ≤ SPEED_MAX

instance (c : ControllerState) : Decidable (speedInRange c) :=
  inferInstanceAs (Decidable (_ ∧ _))

/-- Helper: `jog` never changes `current_speed`, whatever the command and
the write outcome. -/
theorem jog_preserves_speed (c : ControllerState) (cmd : Int) (o : List Bool) :
    (jog c cmd o).state.current_speed = c.current_speed := by
  rcases o with _ | ⟨b, t⟩
  · rfl
  · rcases b <;> rfl

/-- Helper: the clamped speed is in the speed range and is none of the
reserved command codes. -/
theorem clampSpeed_in_range (s : Int) :
    SPEED_MIN ≤ clampSpeed s ∧ clampSpeed s ≤ SPEED_MAX ∧
    clampSpeed s ≠ FORWARD ∧ clampSpeed s ≠ REVERSE ∧ clampSpeed s ≠ STOP := by
  unfold clampSpeed SPEED_MIN SPEED_MAX FORWARD REVERSE STOP
  split_ifs <;> refine ⟨by omega, by omega, by omega, by omega, by omega⟩

/-- Helper: after `set_jog_speed`, `current_speed` is either the clamped
request (the speed write succeeded) or unchanged (it failed). -/
theorem set_jog_speed_speed_cases (c : ControllerState) (s : Int) (o : List Bool) :
    (set_jog_speed c s o).state.current_speed = clampSpeed s ∨
    (set_jog_speed c s o).state.current_speed = c.current_speed := by
  unfold set_jog_speed
  dsimp only
  split
  · split
    · left
      rw [jog_preserves_speed]
    · split
      · left
        rw [jog_preserves_speed]
      · left
        rfl
  · right
    rfl

/-- C4: the reserved JOG command codes FORWARD (4999), REVERSE (4998) and
STOP (5000) are each strictly greater than SPEED_MAX (3000), so a value
in the shared JOG register is distinguishable as speed or command by
magnitude alone. -/
theorem jog_commands_exceed_speed_max :
    SPEED_MAX < FORWARD ∧ SPEED_MAX < REVERSE ∧ SPEED_MAX < STOP := by
  decide

/-- C2: for every state and requested speed `s`, `set_jog_speed` (with the
speed write succeeding) returns `True`, stores `clampSpeed s` in
`current_speed`, writes `clampSpeed s` to the JOG register as its first
write, where `clampSpeed s` is `SPEED_MIN` for `s < SPEED_MIN`,
`SPEED_MAX` for `s > SPEED_MAX` and `s` otherwise; the written speed is
always in `[0, 3000]` and never a reserved command code. -/
theorem set_jog_speed_clamps (c : ControllerState) (s : Int) :
    (set_jog_speed c s []).ok = true ∧
    (set_jog_speed c s []).state.current_speed = clampSpeed s ∧
    (∃ rest, (set_jog_speed c s []).writes = (JOG, clampSpeed s) :: rest) ∧
    clampSpeed s = (if s < SPEED_MIN then SPEED_MIN
                    else if s > SPEED_MAX then SPEED_MAX else s) ∧
    SPEED_MIN ≤ clampSpeed s ∧ clampSpeed s ≤ SPEED_MAX ∧
    clampSpeed s ≠ FORWARD ∧ clampSpeed s ≠ REVERSE ∧ clampSpeed s ≠ STOP := by
  obtain ⟨hmin, hmax, hf, hr, hs⟩ := clampSpeed_in_range s
  obtain ⟨cs, cd⟩ := c
  rcases cd with _ | d
  · exact ⟨rfl, rfl, ⟨[], rfl⟩, rfl, hmin, hmax, hf, hr, hs⟩
  · rcases d
    · exact ⟨rfl, rfl, ⟨[(JOG, FORWARD)], rfl⟩, rfl, hmin, hmax, hf, hr, hs⟩
    · exact ⟨rfl, rfl, ⟨[(JOG, REVERSE)], rfl⟩, rfl, hmin, hmax, hf, hr, hs⟩

/-- C3: `initialize_speed` on the startup state (speed 20) adopts the read
JOG register value as `current_speed` exactly when it is `≤ SPEED_MAX`;
otherwise (a reserved command code, e.g. 4999 = FORWARD) the value is
discarded and the default seed speed 20 is kept, the state being left
exactly as it was. -/
theorem initialize_speed_spec :
    (∀ v : Nat, (initialize_speed initialState (some v)).current_speed =
        if (v : Int) ≤ SPEED_MAX then (v : Int) else 20) ∧
    initialize_speed initialState (some 4999) = initialState ∧
    (initialize_speed initialState (some 4999)).current_speed = 20 := by
  refine ⟨?_, by decide, by decide⟩
  intro v
  unfold initialize_speed initialState
  dsimp only
  split_ifs <;> rfl

/-- C10: for a value `v` that is none of the reserved codes FORWARD,
REVERSE, STOP, a successful `jog c v` writes `v` to the JOG register
unmodified, leaves the whole state (in particular `current_direction`)
unchanged, and returns `True`. -/
theorem jog_passthrough (c : ControllerState) (v : Int) (o : List Bool)
    (h1 : v ≠ FORWARD) (h2 : v ≠ REVERSE) (h3 : v ≠ STOP) :
    (jog c v (true :: o)).ok = true ∧
    (jog c v (true :: o)).state = c ∧
    (jog c v (true :: o)).writes = [(JOG, v)] := by
  unfold jog writeOutcome
  simp [h1, h2, h3]

/-- Witness for C10 at `v = 100` from the initial state. -/
theorem jog_passthrough_witness :
    (100 : Int) ≠ FORWARD ∧ (100 : Int) ≠ REVERSE ∧ (100 : Int) ≠ STOP ∧
    ((jog initialState 100 [true]).ok = true ∧
     (jog initialState 100 [true]).state = initialState ∧
     (jog initialState 100 [true]).writes = [(JOG, 100)]) :=
  ⟨by decide, by decide, by decide,
    jog_passthrough initialState 100 [] (by decide) (by decide) (by decide)⟩

/-- C1 counterexample: from direction forward, a `stop_jog` whose STOP
write fails returns `False` and yet updates `current_direction` — it is
`none` (Stopped) after the call, not the `forward` it held before,
because `stop_jog` assigns `current_direction = None` before attempting
the write. -/
theorem stop_jog_write_failure_updates_direction :
    (stop_jog { current_speed := 20, current_direction := some Direction.forward }
        [false]).ok = false ∧
    (stop_jog { current_speed := 20, current_direction := some Direction.forward }
        [false]).state.current_direction ≠ some Direction.forward ∧
    (stop_jog { current_speed := 20, current_direction := some Direction.forward }
        [false]).state.current_direction = none := by
  decide

/-- C1 amended: when the operation's own register write fails,
`set_jog_speed` and `jog` return `False` and leave the state (both
`current_speed` and `current_direction`) unchanged with nothing written;
`stop_jog` returns `False`, leaves `current_speed` unchanged and writes
nothing, but has already set `current_direction` to Stopped (`none`), so
the direction is updated even though the write failed. -/
theorem write_failure_semantics :
    (∀ (c : ControllerState) (s : Int) (t : List Bool),
      (set_jog_speed c s (false :: t)).ok = false ∧
      (set_jog_speed c s (false :: t)).state = c ∧
      (set_jog_speed c s (false :: t)).writes = []) ∧
    (∀ (c : ControllerState) (v : Int) (t : List Bool),
      (jog c v (false :: t)).ok = false ∧
      (jog c v (false :: t)).state = c ∧
      (jog c v (false :: t)).writes = []) ∧
    (∀ (c : ControllerState) (t : List Bool),
      (stop_jog c (false :: t)).ok = false ∧
      (stop_jog c (false :: t)).state.current_speed = c.current_speed ∧
      (stop_jog c (false :: t)).state.current_direction = none ∧
      (stop_jog c (false :: t)).writes = []) :=
  ⟨fun _ _ _ => ⟨rfl, rfl, rfl⟩,
   fun _ _ _ => ⟨rfl, rfl, rfl⟩,
   fun _ _ => ⟨rfl, rfl, rfl, rfl⟩⟩

/-- C5: when `set_jog_speed` is called while `current_direction` is
forward or reverse (all writes succeeding), it returns `True`, performs
exactly two JOG register writes in order — first the clamped speed, then
the matching direction command code — and the final direction equals the
direction held before the call. -/
theorem set_jog_speed_reasserts_direction (c : ControllerState) (d : Direction) (s : Int)
    (h : c.current_direction = some d) :
    (set_jog_speed c s []).ok = true ∧
    (set_jog_speed c s []).state.current_direction = some d ∧
    (set_jog_speed c s []).writes =
      [(JOG, clampSpeed s),
       (JOG, if d = Direction.forward then FORWARD else REVERSE)] := by
  obtain ⟨cs, cd⟩ := c
  dsimp only at h
  subst h
  rcases d
  · exact ⟨rfl, rfl, rfl⟩
  · exact ⟨rfl, rfl, rfl⟩

/-- Witness for C5: `jog(FORWARD)` state, then `set_jog_speed 100` —
writes JOG=100 then JOG=4999, final direction forward. -/
theorem set_jog_speed_reasserts_direction_witness :
    (set_jog_speed { current_speed := 20, current_direction := some Direction.forward }
        100 []).ok = true ∧
    (set_jog_speed { current_speed := 20, current_direction := some Direction.forward }
        100 []).state.current_direction = some Direction.forward ∧
    (set_jog_speed { current_speed := 20, current_direction := some Direction.forward }
        100 []).writes =
      [(JOG, clampSpeed 100),
       (JOG, if Direction.forward = Direction.forward then FORWARD else REVERSE)] :=
  set_jog_speed_reasserts_direction
    { current_speed := 20, current_direction := some Direction.forward }
    Direction.forward 100 rfl

/-- Helper: `set_jog_speed` keeps `current_speed` in range, whatever the
oracle. -/
theorem set_jog_speed_preserves_range (c : ControllerState) (s : Int) (o : List Bool)
    (h : speedInRange c) : speedInRange (set_jog_speed c s o).state := by
  obtain ⟨hmin, hmax, -, -, -⟩ := clampSpeed_in_range s
  rcases set_jog_speed_speed_cases c s o with hs | hs <;>
    unfold speedInRange at h ⊢ <;> rw [hs]
  · exact ⟨hmin, hmax⟩
  · exact h

/-- C6: `current_speed` is always in `[SPEED_MIN, SPEED_MAX] = [0, 3000]`:
it is 20 at construction, and every operation that can assign it
(`set_jog_speed`, `increase_speed`, `decrease_speed`, `initialize_speed`,
`jog`, `stop_jog`, `reset_speed_to_initial`, `close`) preserves the
bound, for every oracle of write outcomes. -/
theorem current_speed_in_range :
    speedInRange initialState ∧
    (∀ (c : ControllerState) (s : Int) (o : List Bool),
      speedInRange c → speedInRange (set_jog_speed c s o).state) ∧
    (∀ (c : ControllerState) (i : Int) (o : List Bool),
      speedInRange c → speedInRange (increase_speed c i o).state) ∧
    (∀ (c : ControllerState) (i : Int) (o : List Bool),
      speedInRange c → speedInRange (decrease_speed c i o).state) ∧
    (∀ (c : ControllerState) (v : Option Nat),
      speedInRange c → speedInRange (initialize_speed c v)) ∧
    (∀ (c : ControllerState) (cmd : Int) (o : List Bool),
      speedInRange c → speedInRange (jog c cmd o).state) ∧
    (∀ (c : ControllerState) (o : List Bool),
      speedInRange c → speedInRange (stop_jog c o).state) ∧
    (∀ (c : ControllerState) (o : List Bool),
      speedInRange c → speedInRange (reset_speed_to_initial c o).state) ∧
    (∀ (b : Bool) (c : ControllerState) (o : List Bool),
      speedInRange c → speedInRange (close b c o).state) := by
  have hjog : ∀ (c : ControllerState) (cmd : Int) (o : List Bool),
      speedInRange c → speedInRange (jog c cmd o).state := by
    intro c cmd o h
    unfold speedInRange at h ⊢
    rw [jog_preserves_speed]
    exact h
  have hstop : ∀ (c : ControllerState) (o : List Bool),
      speedInRange c → speedInRange (stop_jog c o).state := by
    intro c o h
    exact hjog _ STOP o h
  have hreset : ∀ (c : ControllerState) (o : List Bool),
      speedInRange c → speedInRange (reset_speed_to_initial c o).state := by
    intro c o h
    exact set_jog_speed_preserves_range c 20 o h
  refine ⟨by decide, set_jog_speed_preserves_range, ?_, ?_, ?_, hjog, hstop, hreset, ?_⟩
  · intro c i o h
    exact set_jog_speed_preserves_range c (c.current_speed + i) o h
  · intro c i o h
    exact set_jog_speed_preserves_range c (c.current_speed - i) o h
  · intro c v h
    rcases v with _ | v
    · exact h
    · unfold speedInRange at h ⊢
      unfold initialize_speed
      dsimp only
      split_ifs with hv
      · constructor
        · unfold SPEED_MIN
          positivity
        · exact hv
      · exact h
  · intro b c o h
    rcases b
    · exact h
    · exact hreset _ _ (hstop _ _ h)

/-- Witness for C6: an out-of-range request from the initial state leaves
`current_speed` in range. -/
theorem current_speed_in_range_witness :
    speedInRange (set_jog_speed initialState 5000 []).state :=
  current_speed_in_range.2.1 initialState 5000 [] (by decide)

/-- C7: `check_connection` succeeds exactly when both the VERSION and the
ERROR reads succeed and the ERROR value is zero; every non-zero error
code yields failure with the description resolved from the error catalog
(`error_descriptions`, falling back to the unknown-error text); code 7
resolves to the overspeed description; any non-zero code outside the
catalog resolves to the unknown-error description. -/
theorem check_connection_spec :
    (∀ vR eR : Option Nat,
      (check_connection vR eR).1 = true ↔ vR.isSome = true ∧ eR = some 0) ∧
    (∀ v e : Nat, e ≠ 0 → check_connection (some v) (some e) =
      (false, some ((error_descriptions e).getD "Неизвестная ошибка"))) ∧
    check_connection (some 0) (some 7) = (false, some "Превышение скорости") ∧
    error_descriptions 7 = some "Превышение скорости" ∧
    (∀ e : Nat, e ≠ 0 → e ≠ 1 → e ≠ 2 → e ≠ 3 → e ≠ 4 → e ≠ 5 → e ≠ 6 → e ≠ 7 →
      e ≠ 8 → e ≠ 9 → e ≠ 10 → e ≠ 13 → e ≠ 14 → e ≠ 15 → e ≠ 20 → e ≠ 23 →
      check_connection (some 0) (some e) = (false, some "Неизвестная ошибка")) := by
  refine ⟨?_, ?_, rfl, rfl, ?_⟩
  · intro vR eR
    rcases vR with _ | v
    · simp [check_connection]
    · rcases eR with _ | e
      · simp [check_connection]
      · by_cases he : e = 0
        · subst he
          simp [check_connection]
        · simp [check_connection, he]
  · intro v e he
    simp [check_connection, he]
  · intro e h0 h1 h2 h3 h4 h5 h6 h7 h8 h9 h10 h13 h14 h15 h20 h23
    simp [check_connection, error_descriptions, h0, h1, h2, h3, h4, h5, h6, h7,
      h8, h9, h10, h13, h14, h15, h20, h23]

/-- Witness for C7: error code 7 with successful reads yields failure with
the overspeed description. -/
theorem check_connection_spec_witness :
    check_connection (some 5) (some 7) =
      (false, some ((error_descriptions 7).getD "Неизвестная ошибка")) :=
  check_connection_spec.2.1 5 7 (by decide)

/-- C8: `stop_jog` is idempotent — from every starting state (writes
succeeding), one call returns `True`, ends Stopped with the STOP code
(5000) written to the JOG register, and a second call yields exactly the
same terminal state, its only effect being a repeated STOP write. -/
theorem stop_jog_idempotent (c : ControllerState) :
    (stop_jog c []).ok = true ∧
    (stop_jog c []).state.current_direction = none ∧
    (stop_jog c []).writes = [(JOG, STOP)] ∧
    (stop_jog (stop_jog c []).state []).state = (stop_jog c []).state ∧
    (stop_jog (stop_jog c []).state []).writes = [(JOG, STOP)] ∧
    (stop_jog (stop_jog c []).state []).ok = true := by
  obtain ⟨cs, cd⟩ := c
  exact ⟨rfl, rfl, rfl, rfl, rfl, rfl⟩

/-- C9: `close` on a connected controller (writes succeeding) runs stop
then speed-reset in that order — the JOG register receives STOP (5000)
then the default seed speed 20 — and afterwards `current_direction` is
Stopped and `current_speed` is 20, from every starting state. -/
theorem close_spec (c : ControllerState) :
    (close true c []).state =
      { current_speed := 20, current_direction := none } ∧
    (close true c []).writes = [(JOG, STOP), (JOG, 20)] := by
  obtain ⟨cs, cd⟩ := c
  exact ⟨rfl, rfl⟩

end ServoController
